import Mathlib

/-!
Shallow embedding of the "email marketing" backends in `src/app.py` (database
variant: campaign dispatcher, quota tracker, template renderer, CSV parser,
SMTP transport) and `src/main.py` (in-memory variant: single send, bulk send,
open tracking), together with theorems checking the specification's claims.

Conventions of the embedding:
* machine integers are `Nat` (all counters in the source only grow or reset to 0);
* Python dictionaries of CSV rows are association lists `List (String × String)`;
* the SMTP library interaction inside a `with smtplib.SMTP(...)` block is
  abstracted as an `SmtpSession` environment recording, for each of the four
  calls performed (connect, starttls, login, send_message), whether it raises
  (`some errText`) or succeeds (`none`); the surrounding `try/except` of the
  source maps any raised error to a `(False, str(e))` return value;
* the nondeterministic outcome of one per-recipient iteration of the campaign
  dispatcher is a `SendOutcome` parameter: the transport returned `(True, _)`,
  the transport returned `(False, err)`, or an unexpected exception was raised
  while processing that recipient (before its bookkeeping), which the
  dispatcher's `except` branch turns into a failed status.
-/

namespace EmailSaas

/-- Constant `FREE_QUOTA` from `src/app.py`. -/
def FREE_QUOTA : Nat := 10

/-- Constant `PREMIUM_QUOTA` from `src/app.py`. -/
def PREMIUM_QUOTA : Nat := 1000

/-- Constant `FREE_LIMIT` from `src/main.py`. -/
def FREE_LIMIT : Nat := 10

/-- Constant `PAID_LIMIT` from `src/main.py`. -/
def PAID_LIMIT : Nat := 100

/-! ### Email address validation

Both files validate addresses with
`re.match(r'^[a-zA-Z0-9._%+-]+@[a-zA-Z0-9.-]+\.[a-zA-Z]{2,}$', email)`.
The pattern is anchored on both sides, so a match is a decomposition
`local ++ "@" ++ domain ++ "." ++ tld` with `local` a nonempty run of
characters from `[a-zA-Z0-9._%+-]`, `domain` a nonempty run from
`[a-zA-Z0-9.-]`, and `tld` at least two ASCII letters.  Since `@` belongs to
neither character class, the split at `@` is forced to the first non-local
character; the split before the tld is found by scanning all positions. -/

/-- Characters allowed by the regex in the part before the `@`. -/
def isLocalChar (c : Char) : Bool :=
  c.isAlpha || c.isDigit || c == '.' || c == '_' || c == '%' || c == '+' || c == '-'

/-- Characters allowed by the regex between the `@` and the final dot. -/
def isDomainChar (c : Char) : Bool :=
  c.isAlpha || c.isDigit || c == '.' || c == '-'

/-- Decides whether a character list matches `[a-zA-Z0-9.-]+\.[a-zA-Z]{2,}` in
full, by scanning every candidate position for the final dot. -/
def matchDomain (cs : List Char) : Bool :=
  (List.range cs.length).any (fun j =>
    decide (1 ≤ j) && (cs.take j).all isDomainChar
      && ((cs.drop j).headD ' ' == '.')
      && (cs.drop (j + 1)).all Char.isAlpha
      && decide (2 ≤ cs.length - (j + 1)))

/-- Embedding of `validate_email` (identical in `src/app.py` and
`src/main.py`): full-string match of the address regex. -/
def validate_email (s : String) : Bool :=
  let cs := s.data
  let lpart := cs.takeWhile isLocalChar
  let rest := cs.drop lpart.length
  !lpart.isEmpty && (rest.headD ' ' == '@') && matchDomain (rest.drop 1)

/-! ### SMTP transport -/

/-- Environment of one `with smtplib.SMTP(...)` block: for each library call
made inside the block, either `none` (the call returns normally) or
`some errText` (the call raises an exception whose `str` is `errText`). -/
structure SmtpSession where
  connect : Option String
  starttls : Option String
  login : Option String
  send_message : Option String
deriving Repr, DecidableEq

/-- Runs the four calls of the `with` block in source order and returns the
first raised error, if any. -/
def runSession (env : SmtpSession) : Option String :=
  match env.connect with
  | some e => some e
  | none =>
    match env.starttls with
    | some e => some e
    | none =>
      match env.login with
      | some e => some e
      | none => env.send_message

/-- Session in which every call succeeds. -/
def sessionOk : SmtpSession := ⟨none, none, none, none⟩

/-! ### CSV rows as dictionaries -/

/-- One CSV row as produced by `csv.DictReader`: an association list from
column name to cell text. -/
abbrev Row : Type := List (String × String)

/-- Embedding of `row.get(k, '')`: the cell under column `k`, or `''`. -/
def rowGetD (row : Row) (k : String) : String :=
  ((List.find? (fun p => p.1 == k) row).map Prod.snd).getD ""

/-- Embedding of `row.get(k)`: the cell under column `k`, or `None`. -/
def rowGet (row : Row) (k : String) : Option String :=
  (List.find? (fun p => p.1 == k) row).map Prod.snd

/-- Embedding of `k in row`: whether the row has column `k`. -/
def hasCol (row : Row) (k : String) : Bool :=
  (List.find? (fun p => p.1 == k) row).isSome

/-- ASCII whitespace stripped by Python `str.strip()` (the embedding covers
the ASCII range of the inputs). -/
def isSpaceChar (c : Char) : Bool :=
  c == ' ' || c == '\t' || c == '\n' || c == '\r' || c == '\x0b' || c == '\x0c'

/-- Embedding of Python `s.strip()`: removes leading and trailing whitespace. -/
def pyStrip (s : String) : String :=
  ⟨((s.data.dropWhile isSpaceChar).reverse.dropWhile isSpaceChar).reverse⟩

/-- Lower-cases one ASCII letter, as Python `str.lower()` does on the ASCII
range of the inputs. -/
def lowerChar (c : Char) : Char :=
  if 'A' ≤ c ∧ c ≤ 'Z' then Char.ofNat (c.toNat + 32) else c

/-- Embedding of Python `s.lower()`. -/
def pyLower (s : String) : String :=
  ⟨s.data.map lowerChar⟩

namespace App

/-! ## Embedding of `src/app.py` (database variant) -/

/-- The `DailyQuota` row for (user, today): the two counters the dispatcher
and quota tracker touch. -/
structure DailyQuota where
  sent_count : Nat
  failed_count : Nat
deriving Repr, DecidableEq

/-- The mutable part of a `Campaign` row used by the dispatcher. -/
structure Campaign where
  status : String
  total_recipients : Nat
  sent_count : Nat
  failed_count : Nat
deriving Repr, DecidableEq

/-- A `Recipient` row: personalization fields plus per-recipient outcome. -/
structure Recipient where
  email : String
  name : String
  company : String
  city : String
  status : String
  error : Option String
deriving Repr, DecidableEq

/-- An `EmailLog` row as appended by the dispatcher. -/
structure EmailLog where
  recipient : String
  status : String
  error : Option String
deriving Repr, DecidableEq

/-- The plan-dependent daily ceiling used by `User.can_send_email`:
`FREE_QUOTA if self.plan == 'free' else PREMIUM_QUOTA`. -/
def quotaLimit (plan : String) : Nat :=
  if plan = "free" then FREE_QUOTA else PREMIUM_QUOTA

/-- Embedding of `User.can_send_email`: `quota.sent_count < limit`. -/
def can_send_email (plan : String) (quota : DailyQuota) : Bool :=
  decide (quota.sent_count < quotaLimit plan)

/-- Outcome of the per-recipient iteration body in `send_emails`, viewed from
the `try` block: the transport call returned `(True, _)`, the transport call
returned `(False, err)`, or an unexpected exception with text `err` was
raised while processing the recipient, landing in the `except` branch before
any bookkeeping for that recipient happened. -/
inductive SendOutcome where
  | ok
  | fail (err : String)
  | exc (err : String)
deriving Repr, DecidableEq

/-- Result of one dispatcher run: the campaign row, the user's daily quota
row, the appended `EmailLog` entries, the number of transport invocations
(a ghost counter: `send_email_smtp` calls, successful or not), and the final
per-recipient rows in iteration order. -/
structure DispatchResult where
  campaign : Campaign
  quota : DailyQuota
  log : List EmailLog
  attempts : Nat
  recipients : List Recipient
deriving Repr, DecidableEq

/-- Embedding of the `for recipient in recipients:` loop of `send_emails` in
`src/app.py`.  Per recipient: if `user.can_send_email()` fails the campaign
becomes `paused` and the loop breaks (remaining recipients are returned
untouched); otherwise the recipient is processed according to its
`SendOutcome`: on `(True, _)` it is marked `sent`, `campaign.sent_count` and
`quota.sent_count` grow by one and a `sent` log entry is appended; on
`(False, err)` it is marked `failed` with the error text,
`campaign.failed_count` and `quota.failed_count` grow by one and a `failed`
log entry is appended; on an unexpected exception the `except` branch marks
it `failed` with the error text and bumps only `campaign.failed_count`. -/
def dispatchLoop (plan : String) (c : Campaign) (q : DailyQuota)
    (log : List EmailLog) (att : Nat) :
    List (Recipient × SendOutcome) → DispatchResult
  | [] => ⟨c, q, log, att, []⟩
  | (r, o) :: rest =>
    if can_send_email plan q then
      match o with
      | .ok =>
        let res := dispatchLoop plan
          { c with sent_count := c.sent_count + 1 }
          { q with sent_count := q.sent_count + 1 }
          (log ++ [⟨r.email, "sent", none⟩]) (att + 1) rest
        { res with recipients := { r with status := "sent" } :: res.recipients }
      | .fail err =>
        let res := dispatchLoop plan
          { c with failed_count := c.failed_count + 1 }
          { q with failed_count := q.failed_count + 1 }
          (log ++ [⟨r.email, "failed", some err⟩]) (att + 1) rest
        { res with recipients :=
            { r with status := "failed", error := some err } :: res.recipients }
      | .exc err =>
        let res := dispatchLoop plan
          { c with failed_count := c.failed_count + 1 } q log att rest
        { res with recipients :=
            { r with status := "failed", error := some err } :: res.recipients }
    else
      ⟨{ c with status := "paused" }, q, log, att, r :: rest.map Prod.fst⟩

/-- The epilogue of `send_emails`: `if campaign.status != 'paused':` stamp the
campaign `completed`. -/
def stampCompleted (res : DispatchResult) : DispatchResult :=
  if res.campaign.status = "paused" then res
  else { res with campaign := { res.campaign with status := "completed" } }

/-- Embedding of the background `send_emails` closure of `start_campaign`:
sets the campaign to `sending`, runs the per-recipient loop over the loaded
pending recipients (paired with their nondeterministic outcomes), and stamps
the campaign `completed` unless the loop paused it. -/
def send_emails (plan : String) (c : Campaign) (q : DailyQuota)
    (input : List (Recipient × SendOutcome)) : DispatchResult :=
  stampCompleted (dispatchLoop plan { c with status := "sending" } q [] 0 input)

/-- A freshly composed campaign, as created by the `compose` route:
`total_recipients` is fixed to the number of uploaded rows and both counters
start at zero. -/
def composeCampaign (n : Nat) : Campaign :=
  ⟨"draft", n, 0, 0⟩

/-- A recipient row as created at compose time: status `pending`, no error. -/
def mkRecipient (email name company city : String) : Recipient :=
  ⟨email, name, company, city, "pending", none⟩

/-! ### Template renderer

The dispatcher personalizes subject and body with
`for key, value in vars_map.items(): s = s.replace(key, value)`.
`str.replace` replaces every non-overlapping occurrence, scanning left to
right; `s.replace('', v)` inserts `v` before every character and at the end.
Both behaviours are reproduced on character lists. -/

/-- Embedding of Python `s.replace(k, v)` on character lists. -/
def replaceList (k v : List Char) (s : List Char) : List Char :=
  match s with
  | [] => if k.isEmpty then v else []
  | c :: rest =>
    if h : k.isEmpty then v ++ c :: replaceList k v rest
    else if hp : k.isPrefixOf (c :: rest) then v ++ replaceList k v ((c :: rest).drop k.length)
    else c :: replaceList k v rest
termination_by s.length
decreasing_by
  all_goals simp only [List.length_drop, List.length_cons]
  all_goals (try omega)
  all_goals
    (have hk : 0 < k.length := by
       cases k with
       | nil => exact absurd rfl h
       | cons a as => exact Nat.succ_pos as.length
     omega)

/-- Embedding of Python `k in s` (substring containment) on character lists. -/
def containsSub (k : List Char) : List Char → Bool
  | [] => k.isEmpty
  | c :: rest => k.isPrefixOf (c :: rest) || containsSub k rest

/-- Embedding of the renderer loop
`for key, value in vars_map.items(): s = s.replace(key, value)`. -/
def renderTemplate (vars : List (List Char × List Char)) (s : List Char) : List Char :=
  vars.foldl (fun acc kv => replaceList kv.1 kv.2 acc) s

/-- The `vars_map` dictionary built per recipient by `send_emails`, in
iteration order of the source literal.  Placeholder braces are written with
character escapes (`\x7b` = opening brace, `\x7d` = closing brace). -/
def vars_map (r : Recipient) (username unsubscribe : String) :
    List (List Char × List Char) :=
  [ ("\x7b\x7bname\x7d\x7d".data, r.name.data)
  , ("\x7b\x7bemail\x7d\x7d".data, r.email.data)
  , ("\x7b\x7bcompany\x7d\x7d".data, r.company.data)
  , ("\x7b\x7bcity\x7d\x7d".data, r.city.data)
  , ("\x7b\x7buser.username\x7d\x7d".data, username.data)
  , ("\x7b\x7bunsubscribe_link\x7d\x7d".data, unsubscribe.data) ]

/-! ### CSV parsing (`parse_csv` in `src/app.py`) -/

/-- A row of the processed contact list returned by `parse_csv`. -/
structure ProcessedRow where
  email : String
  name : String
  company : String
  city : String
deriving Repr, DecidableEq

/-- The `for row in rows:` loop of `parse_csv`: normalizes the address
(`strip` then `lower`), silently drops empty, malformed and already-seen
addresses, and collects the personalization fields of the kept rows. -/
def parseLoop : List Row → List String → List ProcessedRow
  | [], _ => []
  | row :: rest, seen =>
    let email := pyLower (pyStrip (rowGetD row "email"))
    if email = "" then parseLoop rest seen
    else if ¬ validate_email email then parseLoop rest seen
    else if seen.contains email then parseLoop rest seen
    else
      ⟨email, pyStrip (rowGetD row "name"), pyStrip (rowGetD row "company"),
        pyStrip (rowGetD row "city")⟩ :: parseLoop rest (email :: seen)

/-- Embedding of `parse_csv`: empty input and a missing `email` column are
rejected with a message and no rows; otherwise the row loop runs with an
empty seen-set and the kept rows are returned with a summary message. -/
def parse_csv (rows : List Row) : List ProcessedRow × String :=
  if rows.isEmpty then ([], "CSV file is empty")
  else if ¬ hasCol (rows.headD []) "email" then
    ([], "Missing required column: email")
  else
    let processed := parseLoop rows []
    (processed, "Found " ++ toString processed.length ++ " valid emails")

/-- Embedding of `send_email_smtp` in `src/app.py`: the whole body is inside
`try/except`; the `with smtplib.SMTP(...)` block is the `SmtpSession`
environment.  On success the source returns `(True, None)` — the detail is
Python `None`, embedded as `Option.none` — and on any exception it returns
`(False, str(e))`. -/
def send_email_smtp (env : SmtpSession) : Bool × Option String :=
  match runSession env with
  | none => (true, none)
  | some e => (false, some e)

end App

namespace Api

/-! ## Embedding of `src/main.py` (in-memory variant) -/

/-- One entry of the global `emails_history` list.  The single-send path
also stores the sending account under `smtp_account`; the bulk path instead
stores the `campaign` name; `none` models the key being absent. -/
structure EmailRecord where
  id : Nat
  to_email : String
  subject : String
  status : String
  message : String
  opened : Bool
  opened_at : Option String
  smtp_account : Option String
  campaign : Option String
deriving Repr, DecidableEq

/-- The global `user_stats` dictionary. -/
structure UserStats where
  plan : String
  emails_today : Nat
  total_emails : Nat
  last_reset : String
deriving Repr, DecidableEq

/-- One entry of the global `smtp_accounts` list (only the fields the send
paths read). -/
structure SmtpAccount where
  id : Nat
  email : String
deriving Repr, DecidableEq

/-- The mutable module-level state of `src/main.py`, plus a ghost counter of
`send_email_smtp` invocations. -/
structure MainState where
  user_stats : UserStats
  emails_history : List EmailRecord
  smtp_accounts : List SmtpAccount
  attempts : Nat
deriving Repr, DecidableEq

/-- The plan-dependent daily ceiling:
`PAID_LIMIT if user_stats["plan"] == "paid" else FREE_LIMIT`. -/
def dailyLimit (plan : String) : Nat :=
  if plan = "paid" then PAID_LIMIT else FREE_LIMIT

/-- Embedding of `can_send_email` in `src/main.py`: lazily resets the daily
counter when the stored date differs from today (a mutation of the global
`user_stats`), then compares the counter with the plan's limit.  Returns the
boolean together with the possibly-updated stats. -/
def can_send_email (st : UserStats) (today : String) : Bool × UserStats :=
  let st1 := if st.last_reset ≠ today
    then { st with emails_today := 0, last_reset := today } else st
  (decide (st1.emails_today < dailyLimit st1.plan), st1)

/-- Embedding of `send_email_smtp` in `src/main.py`: the whole body is inside
`try/except`; on success it returns `(True, "Email sent successfully")`, and
on any exception `(False, str(e))`. -/
def send_email_smtp (env : SmtpSession) : Bool × String :=
  match runSession env with
  | none => (true, "Email sent successfully")
  | some e => (false, e)

/-- The JSON body of the `/api/send` request; `none` models a missing key. -/
structure SendRequest where
  to_email : Option String
  subject : Option String
  body : Option String
  smtp_account_id : Option Nat
  html_body : Option String
deriving Repr, DecidableEq

/-- An HTTP response of the send endpoints: a 4xx-style rejection with its
status code and message, or the 200 response of a performed send carrying
the transport's boolean, its message and the new history id. -/
inductive ApiResult where
  | reject (code : Nat) (message : String)
  | sent (ok : Bool) (message : String) (email_id : Nat)
deriving Repr, DecidableEq

/-- Account lookup `for acc in smtp_accounts: if acc['id'] == ...`. -/
def findAccount (accounts : List SmtpAccount) (accId : Nat) : Option SmtpAccount :=
  accounts.find? (fun a => a.id == accId)

/-- The rejection message of the quota check on the single-send path; the
source interpolates `user_stats['emails_today']` and always `FREE_LIMIT`. -/
def limitMessage (emailsToday : Nat) : String :=
  "Daily limit reached! (" ++ toString emailsToday ++ "/" ++ toString FREE_LIMIT ++ ")"

/-- Embedding of the `/api/send` route (`send_email` in `src/main.py`), in
source order: missing required fields are rejected 400; a malformed address
is rejected 400; an exhausted daily quota is rejected 400 (the lazy day
reset inside `can_send_email` may still have mutated `user_stats`); an
unknown SMTP account is rejected 404; otherwise the transport is invoked
and, regardless of its boolean, `emails_today` and `total_emails` grow by
one and one history record is appended. -/
def send_email (st : MainState) (req : SendRequest) (today : String)
    (env : SmtpSession) : ApiResult × MainState :=
  if req.to_email.isNone then (.reject 400 "Missing field: to_email", st)
  else if req.subject.isNone then (.reject 400 "Missing field: subject", st)
  else if req.body.isNone then (.reject 400 "Missing field: body", st)
  else if req.smtp_account_id.isNone then
    (.reject 400 "Missing field: smtp_account_id", st)
  else
    let toEmail := req.to_email.getD ""
    if ¬ validate_email toEmail then (.reject 400 "Invalid email address", st)
    else
      let p := can_send_email st.user_stats today
      let st1 := { st with user_stats := p.2 }
      if ¬ p.1 then
        (.reject 400 (limitMessage p.2.emails_today), st1)
      else
        match findAccount st.smtp_accounts (req.smtp_account_id.getD 0) with
        | none => (.reject 404 "SMTP account not found", st1)
        | some acc =>
          let sm := send_email_smtp env
          let record : EmailRecord :=
            { id := st1.emails_history.length + 1
            , to_email := toEmail
            , subject := req.subject.getD ""
            , status := if sm.1 then "success" else "failed"
            , message := sm.2
            , opened := false
            , opened_at := none
            , smtp_account := some acc.email
            , campaign := none }
          (.sent sm.1 sm.2 record.id,
           { st1 with
              user_stats := { st1.user_stats with
                emails_today := st1.user_stats.emails_today + 1
              , total_emails := st1.user_stats.total_emails + 1 }
            , emails_history := st1.emails_history ++ [record]
            , attempts := st1.attempts + 1 })

/-! ### Bulk sending (`send_bulk` in `src/main.py`) -/

/-- One row collected from the uploaded CSV by the first loop of `send_bulk`. -/
structure BulkEmail where
  email : String
  subject : String
  body : String
  html_body : Option String
deriving Repr, DecidableEq

/-- The first loop of `send_bulk`: a row lacking an `email` or a `subject`
column is skipped; every other row is collected as-is — no address
validation and no duplicate elimination happen here. -/
def collectBulk (rows : List Row) : List BulkEmail :=
  rows.filterMap (fun row =>
    if hasCol row "email" && hasCol row "subject" then
      some ⟨rowGetD row "email", rowGetD row "subject", rowGetD row "body",
            rowGet row "html_body"⟩
    else none)

/-- One entry of the per-row `results` list returned by `send_bulk`. -/
structure BulkResult where
  email : String
  status : String
  message : String
deriving Repr, DecidableEq

/-- The sending loop of `send_bulk`: per collected row, if the quota check
fails the row is recorded as failed without a transport call; otherwise the
transport runs (consuming the next session of `envs`), the counters grow,
and a history record tagged with the campaign name is appended. -/
def bulkLoop (today campaignName : String) :
    MainState → List SmtpSession → List BulkEmail → MainState × List BulkResult
  | st, _, [] => (st, [])
  | st, envs, e :: rest =>
    let p := can_send_email st.user_stats today
    let st1 := { st with user_stats := p.2 }
    if p.1 then
      let sm := send_email_smtp (envs.headD sessionOk)
      let record : EmailRecord :=
        { id := st1.emails_history.length + 1
        , to_email := e.email
        , subject := e.subject
        , status := if sm.1 then "success" else "failed"
        , message := sm.2
        , opened := false
        , opened_at := none
        , smtp_account := none
        , campaign := some campaignName }
      let st2 := { st1 with
        user_stats := { st1.user_stats with
          emails_today := st1.user_stats.emails_today + 1
        , total_emails := st1.user_stats.total_emails + 1 }
      , emails_history := st1.emails_history ++ [record]
      , attempts := st1.attempts + 1 }
      let pr := bulkLoop today campaignName st2 envs.tail rest
      (pr.1, ⟨e.email, record.status, sm.2⟩ :: pr.2)
    else
      let pr := bulkLoop today campaignName st1 envs rest
      (pr.1, ⟨e.email, "failed", "Daily limit reached during sending"⟩ :: pr.2)

/-- Embedding of the `/api/send/bulk` route (`send_bulk` in `src/main.py`):
after the account lookup, the rows are collected, the batch is rejected
upfront when `emails_today + len(emails_to_send)` would exceed the plan's
limit (no lazy day reset happens in this pre-check), and otherwise the
sending loop runs. -/
def send_bulk (st : MainState) (rows : List Row) (accId : Nat)
    (campaignName today : String) (envs : List SmtpSession) :
    ApiResult × MainState × List BulkResult :=
  match findAccount st.smtp_accounts accId with
  | none => (.reject 404 "SMTP account not found", st, [])
  | some _ =>
    let toSend := collectBulk rows
    if dailyLimit st.user_stats.plan < st.user_stats.emails_today + toSend.length then
      (.reject 400 ("Cannot send " ++ toString toSend.length
        ++ " emails. Daily limit would be exceeded."), st, [])
    else
      let pr := bulkLoop today campaignName st envs toSend
      (.sent true ("Processed " ++ toString pr.2.length ++ " emails") 0,
        pr.1, pr.2)

/-! ### Open tracking (`track_email_open` in `src/main.py`) -/

/-- The 1×1 transparent GIF literal returned by `/api/track/open/:id`,
byte for byte. -/
def TRACKING_PIXEL : List Nat :=
  [0x47, 0x49, 0x46, 0x38, 0x39, 0x61, 0x01, 0x00, 0x01, 0x00, 0x80, 0x00,
   0x00, 0x00, 0x00, 0x00, 0x00, 0x00, 0x00, 0x21, 0xf9, 0x04, 0x01, 0x00,
   0x00, 0x00, 0x00, 0x2c, 0x00, 0x00, 0x00, 0x00, 0x01, 0x00, 0x01, 0x00,
   0x00, 0x02, 0x02, 0x44, 0x01, 0x00, 0x3b]

/-- The `for email in emails_history:` loop of `track_email_open`: the first
record with a matching id gets `opened = True` and an `opened_at` stamp, then
the loop breaks; everything else is untouched. -/
def markOpened (emailId : Nat) (now : String) :
    List EmailRecord → List EmailRecord
  | [] => []
  | r :: rest =>
    if r.id = emailId then
      { r with opened := true, opened_at := some now } :: rest
    else r :: markOpened emailId now rest

/-- Embedding of the `/api/track/open/:id` route: unconditionally returns the
fixed pixel with HTTP 200 and mimetype `image/gif`, after marking the first
matching history record (if any) as opened. -/
def track_email_open (st : MainState) (emailId : Nat) (now : String) :
    (List Nat × Nat × String) × MainState :=
  ((TRACKING_PIXEL, 200, "image/gif"),
   { st with emails_history := markOpened emailId now st.emails_history })

end Api

/-! ## Helper lemmas about the campaign dispatcher -/

namespace App

/-- The dispatcher never changes `total_recipients`. -/
theorem dispatchLoop_total_eq :
    ∀ (input : List (Recipient × SendOutcome)) (plan : String) (c : Campaign)
      (q : DailyQuota) (log : List EmailLog) (att : Nat),
      (dispatchLoop plan c q log att input).campaign.total_recipients
        = c.total_recipients := by
  intro input
  induction input with
  | nil => intro plan c q log att; rfl
  | cons hd tl ih =>
    intro plan c q log att
    obtain ⟨r, o⟩ := hd
    simp only [dispatchLoop]
    split
    · cases o <;> simp [ih]
    · rfl

/-- Each processed recipient adds one to exactly one of the two campaign
counters, so their sum grows by at most the number of recipients. -/
theorem dispatchLoop_counts_le :
    ∀ (input : List (Recipient × SendOutcome)) (plan : String) (c : Campaign)
      (q : DailyQuota) (log : List EmailLog) (att : Nat),
      (dispatchLoop plan c q log att input).campaign.sent_count
          + (dispatchLoop plan c q log att input).campaign.failed_count
        ≤ c.sent_count + c.failed_count + input.length := by
  intro input
  induction input with
  | nil => intro plan c q log att; simp [dispatchLoop]
  | cons hd tl ih =>
    intro plan c q log att
    obtain ⟨r, o⟩ := hd
    simp only [dispatchLoop]
    split
    · cases o with
      | ok =>
        have h := ih plan { c with sent_count := c.sent_count + 1 }
          { q with sent_count := q.sent_count + 1 }
          (log ++ [⟨r.email, "sent", none⟩]) (att + 1)
        simp only [List.length_cons]
        simp at h ⊢
        omega
      | fail err =>
        have h := ih plan { c with failed_count := c.failed_count + 1 }
          { q with failed_count := q.failed_count + 1 }
          (log ++ [⟨r.email, "failed", some err⟩]) (att + 1)
        simp only [List.length_cons]
        simp at h ⊢
        omega
      | exc err =>
        have h := ih plan { c with failed_count := c.failed_count + 1 } q log att
        simp only [List.length_cons]
        simp at h ⊢
        omega
    · simp only [List.length_cons]
      omega

/-- The quota's sent counter never moves past the plan ceiling: it only grows
on a successful send, which is guarded by `can_send_email`. -/
theorem dispatchLoop_quota_le :
    ∀ (input : List (Recipient × SendOutcome)) (plan : String) (c : Campaign)
      (q : DailyQuota) (log : List EmailLog) (att : Nat),
      q.sent_count ≤ quotaLimit plan →
      (dispatchLoop plan c q log att input).quota.sent_count ≤ quotaLimit plan := by
  intro input
  induction input with
  | nil => intro plan c q log att h; exact h
  | cons hd tl ih =>
    intro plan c q log att h
    obtain ⟨r, o⟩ := hd
    simp only [dispatchLoop]
    split
    case isTrue hcan =>
      have hlt : q.sent_count < quotaLimit plan := of_decide_eq_true hcan
      cases o with
      | ok =>
        have := ih plan { c with sent_count := c.sent_count + 1 }
          { q with sent_count := q.sent_count + 1 }
          (log ++ [⟨r.email, "sent", none⟩]) (att + 1) (by simpa using hlt)
        simpa using this
      | fail err =>
        have := ih plan { c with failed_count := c.failed_count + 1 }
          { q with failed_count := q.failed_count + 1 }
          (log ++ [⟨r.email, "failed", some err⟩]) (att + 1) (by simpa using h)
        simpa using this
      | exc err =>
        have := ih plan { c with failed_count := c.failed_count + 1 } q log att h
        simpa using this
    case isFalse hcan => exact h

/-- When the quota cannot run out over the whole batch, every recipient is
processed: each ends `sent` or `failed`, none is left `pending`. -/
theorem dispatchLoop_all_terminal :
    ∀ (input : List (Recipient × SendOutcome)) (plan : String) (c : Campaign)
      (q : DailyQuota) (log : List EmailLog) (att : Nat),
      q.sent_count + input.length ≤ quotaLimit plan →
      ((dispatchLoop plan c q log att input).recipients.all
        (fun r => r.status == "sent" || r.status == "failed")) = true := by
  intro input
  induction input with
  | nil => intro plan c q log att h; rfl
  | cons hd tl ih =>
    intro plan c q log att h
    obtain ⟨r, o⟩ := hd
    have hlt : q.sent_count < quotaLimit plan := by
      simp only [List.length_cons] at h
      omega
    simp only [dispatchLoop]
    rw [if_pos (show can_send_email plan q = true from decide_eq_true hlt)]
    cases o with
    | ok =>
      have := ih plan { c with sent_count := c.sent_count + 1 }
        { q with sent_count := q.sent_count + 1 }
        (log ++ [⟨r.email, "sent", none⟩]) (att + 1)
        (by simp only [List.length_cons] at h; simp only []; omega)
      simpa using this
    | fail err =>
      have := ih plan { c with failed_count := c.failed_count + 1 }
        { q with failed_count := q.failed_count + 1 }
        (log ++ [⟨r.email, "failed", some err⟩]) (att + 1)
        (by simp only [List.length_cons] at h; simp; omega)
      simpa using this
    | exc err =>
      have := ih plan { c with failed_count := c.failed_count + 1 } q log att
        (by simp only [List.length_cons] at h; omega)
      simpa using this

/-- Wrapper facts: the final `completed` stamp of `send_emails` touches only
the campaign status, so every other component equals its argument's. -/
theorem stampCompleted_components (res : DispatchResult) :
    (stampCompleted res).campaign.sent_count = res.campaign.sent_count
      ∧ (stampCompleted res).campaign.failed_count = res.campaign.failed_count
      ∧ (stampCompleted res).campaign.total_recipients = res.campaign.total_recipients
      ∧ (stampCompleted res).quota = res.quota
      ∧ (stampCompleted res).recipients = res.recipients := by
  unfold stampCompleted
  split <;> simp

/-- Replacing a pattern that does not occur in a string leaves it unchanged. -/
theorem replaceList_of_not_contains (k v : List Char) :
    ∀ (s : List Char), containsSub k s = false → replaceList k v s = s := by
  intro s
  induction s with
  | nil =>
    intro h
    rw [containsSub] at h
    rw [replaceList, if_neg (by simp [h])]
  | cons c rest ih =>
    intro h
    rw [containsSub, Bool.or_eq_false_iff] at h
    obtain ⟨h1, h2⟩ := h
    have hk : ¬ k.isEmpty = true := by
      intro hke
      rw [List.isEmpty_iff] at hke
      subst hke
      simp [List.isPrefixOf] at h1
    rw [replaceList, dif_neg hk, dif_neg (by simp [h1]), ih h2]

/-- Rendering a template in which none of the map's placeholders occurs
returns it unchanged, whatever the values are. -/
theorem renderTemplate_of_not_contains :
    ∀ (vars : List (List Char × List Char)) (s : List Char),
      (∀ kv ∈ vars, containsSub kv.1 s = false) → renderTemplate vars s = s := by
  intro vars
  induction vars with
  | nil => intro s _; rfl
  | cons kv rest ih =>
    intro s h
    have h1 := h kv (by simp)
    unfold renderTemplate
    rw [List.foldl_cons, replaceList_of_not_contains _ _ _ h1]
    exact ih s (fun x hx => h x (by simp [hx]))

end App

namespace Api

/-- The tracking loop leaves a history with no matching id untouched. -/
theorem markOpened_of_not_mem (emailId : Nat) (now : String) :
    ∀ (hist : List EmailRecord), (∀ r ∈ hist, r.id ≠ emailId) →
      markOpened emailId now hist = hist := by
  intro hist
  induction hist with
  | nil => intro _; rfl
  | cons r rest ih =>
    intro h
    rw [markOpened, if_neg (h r (by simp)), ih (fun x hx => h x (by simp [hx]))]

/-- The tracking loop updates exactly the first record with the looked-up id
and preserves every other record. -/
theorem markOpened_append (emailId : Nat) (now : String) (r : EmailRecord)
    (post : List EmailRecord) (hr : r.id = emailId) :
    ∀ (pre : List EmailRecord), (∀ x ∈ pre, x.id ≠ emailId) →
      markOpened emailId now (pre ++ r :: post)
        = pre ++ { r with opened := true, opened_at := some now } :: post := by
  intro pre
  induction pre with
  | nil => intro _; rw [List.nil_append, markOpened, if_pos hr, List.nil_append]
  | cons x rest ih =>
    intro h
    rw [List.cons_append, markOpened, if_neg (h x (by simp)),
      ih (fun y hy => h y (by simp [hy])), List.cons_append]

end Api

/-! ## Claims -/

/-- C1: for every campaign composed with its recipient list (so
`total_recipients` is the recipient count fixed at compose time and both
counters start at zero), after every single step of the dispatcher — i.e.
for every prefix of the per-recipient processing, whichever way each
processed send turned out (success, transport failure, or a raised
exception) — `sent_count + failed_count ≤ total_recipients`. -/
theorem C1_campaign_counters_bounded (plan : String) (q : App.DailyQuota)
    (input : List (App.Recipient × App.SendOutcome)) (k : Nat) :
    (App.send_emails plan (App.composeCampaign input.length) q (input.take k)).campaign.sent_count
        + (App.send_emails plan (App.composeCampaign input.length) q (input.take k)).campaign.failed_count
      ≤ (App.composeCampaign input.length).total_recipients := by
  have h1 := App.stampCompleted_components
    (App.dispatchLoop plan { App.composeCampaign input.length with status := "sending" }
      q [] 0 (input.take k))
  unfold App.send_emails
  rw [h1.1, h1.2.1]
  have h2 := App.dispatchLoop_counts_le (input.take k) plan
    { App.composeCampaign input.length with status := "sending" } q [] 0
  have h3 : (input.take k).length ≤ input.length := by
    rw [List.length_take]
    exact min_le_right _ _
  simp [App.composeCampaign] at h2 ⊢
  omega

/-- C2, counterexample: the claim asserts that a free-plan user at 9/10 with
3 pending recipients gets exactly 1 send attempted, a `paused` campaign and
2 recipients left `pending` — unconditionally.  But a failed transport call
does not increase `quota.sent_count` (only `quota.failed_count`), so
`can_send_email` keeps answering yes: with a failing transport all 3
recipients are attempted, none stays pending, and the campaign ends
`completed`, not `paused`. -/
theorem C2_counterexample :
    (App.send_emails "free" (App.composeCampaign 3) ⟨9, 0⟩
        [(App.mkRecipient "r1@x.com" "" "" "", App.SendOutcome.fail "connection refused"),
         (App.mkRecipient "r2@x.com" "" "" "", App.SendOutcome.fail "connection refused"),
         (App.mkRecipient "r3@x.com" "" "" "", App.SendOutcome.fail "connection refused")]).attempts = 3
      ∧ ¬ (App.send_emails "free" (App.composeCampaign 3) ⟨9, 0⟩
        [(App.mkRecipient "r1@x.com" "" "" "", App.SendOutcome.fail "connection refused"),
         (App.mkRecipient "r2@x.com" "" "" "", App.SendOutcome.fail "connection refused"),
         (App.mkRecipient "r3@x.com" "" "" "", App.SendOutcome.fail "connection refused")]).attempts = 1
      ∧ (App.send_emails "free" (App.composeCampaign 3) ⟨9, 0⟩
        [(App.mkRecipient "r1@x.com" "" "" "", App.SendOutcome.fail "connection refused"),
         (App.mkRecipient "r2@x.com" "" "" "", App.SendOutcome.fail "connection refused"),
         (App.mkRecipient "r3@x.com" "" "" "", App.SendOutcome.fail "connection refused")]).campaign.status = "completed"
      ∧ ((App.send_emails "free" (App.composeCampaign 3) ⟨9, 0⟩
        [(App.mkRecipient "r1@x.com" "" "" "", App.SendOutcome.fail "connection refused"),
         (App.mkRecipient "r2@x.com" "" "" "", App.SendOutcome.fail "connection refused"),
         (App.mkRecipient "r3@x.com" "" "" "", App.SendOutcome.fail "connection refused")]).recipients.map
          App.Recipient.status) = ["failed", "failed", "failed"] := by
  decide

/-- C2 as amended: for a free-plan user at 9/10 starting a campaign with 3
pending recipients, and the attempted send succeeding, exactly 1 send is
attempted, the campaign becomes `paused`, and the other 2 recipients stay
`pending` (the quota row reaching 10/10 before the second quota check). -/
theorem C2_scenarioA_success :
    (App.send_emails "free" (App.composeCampaign 3) ⟨9, 0⟩
        [(App.mkRecipient "r1@x.com" "" "" "", App.SendOutcome.ok),
         (App.mkRecipient "r2@x.com" "" "" "", App.SendOutcome.ok),
         (App.mkRecipient "r3@x.com" "" "" "", App.SendOutcome.ok)]).attempts = 1
      ∧ (App.send_emails "free" (App.composeCampaign 3) ⟨9, 0⟩
        [(App.mkRecipient "r1@x.com" "" "" "", App.SendOutcome.ok),
         (App.mkRecipient "r2@x.com" "" "" "", App.SendOutcome.ok),
         (App.mkRecipient "r3@x.com" "" "" "", App.SendOutcome.ok)]).campaign.status = "paused"
      ∧ ((App.send_emails "free" (App.composeCampaign 3) ⟨9, 0⟩
        [(App.mkRecipient "r1@x.com" "" "" "", App.SendOutcome.ok),
         (App.mkRecipient "r2@x.com" "" "" "", App.SendOutcome.ok),
         (App.mkRecipient "r3@x.com" "" "" "", App.SendOutcome.ok)]).recipients.map
          App.Recipient.status) = ["sent", "pending", "pending"]
      ∧ (App.send_emails "free" (App.composeCampaign 3) ⟨9, 0⟩
        [(App.mkRecipient "r1@x.com" "" "" "", App.SendOutcome.ok),
         (App.mkRecipient "r2@x.com" "" "" "", App.SendOutcome.ok),
         (App.mkRecipient "r3@x.com" "" "" "", App.SendOutcome.ok)]).quota.sent_count = 10 := by
  decide

/-- C3: over any run of the dispatcher (looked at after every prefix of the
processing) with the plan fixed throughout, a daily quota that starts within
the plan's ceiling never exceeds it, and the free ceiling is the number 10. -/
theorem C3_quota_within_ceiling (plan : String) (c : App.Campaign)
    (q : App.DailyQuota) (input : List (App.Recipient × App.SendOutcome))
    (k : Nat) (h : q.sent_count ≤ App.quotaLimit plan) :
    (App.send_emails plan c q (input.take k)).quota.sent_count ≤ App.quotaLimit plan
      ∧ App.quotaLimit "free" = 10 := by
  constructor
  · have h1 := App.stampCompleted_components
      (App.dispatchLoop plan { c with status := "sending" } q [] 0 (input.take k))
    unfold App.send_emails
    rw [h1.2.2.2.1]
    exact App.dispatchLoop_quota_le (input.take k) plan
      { c with status := "sending" } q [] 0 h
  · rfl

/-- C3, witness: a free-plan run starting at 9/10 with two successful sends
available still ends at or below the ceiling. -/
theorem C3_quota_within_ceiling_witness :
    (App.send_emails "free" (App.composeCampaign 2) ⟨9, 0⟩
        ([(App.mkRecipient "a@x.com" "" "" "", App.SendOutcome.ok),
          (App.mkRecipient "b@x.com" "" "" "", App.SendOutcome.ok)].take 2)).quota.sent_count
        ≤ App.quotaLimit "free"
      ∧ App.quotaLimit "free" = 10 :=
  C3_quota_within_ceiling "free" (App.composeCampaign 2) ⟨9, 0⟩
    [(App.mkRecipient "a@x.com" "" "" "", App.SendOutcome.ok),
     (App.mkRecipient "b@x.com" "" "" "", App.SendOutcome.ok)] 2 (by decide)

/-- C4, counterexample: on the bulk-send endpoint of `src/main.py` the
claimed dropping does not happen.  Its collection loop only skips rows that
lack an `email` or `subject` column; it neither validates addresses nor
deduplicates them.  For the three-row CSV of the claim all three rows are
collected and, with a fresh quota, three email sends are attempted — not
exactly one. -/
theorem C4_counterexample :
    (Api.send_bulk ⟨⟨"free", 0, 0, "2024-01-01"⟩, [], [⟨1, "me@x.com"⟩], 0⟩
        [[("email", "a@x.com"), ("subject", "Hi")],
         [("email", "bad"), ("subject", "Hi")],
         [("email", "a@x.com"), ("subject", "Hi")]]
        1 "Bulk Campaign" "2024-01-01" [sessionOk, sessionOk, sessionOk]).2.1.attempts = 3
      ∧ ¬ (Api.send_bulk ⟨⟨"free", 0, 0, "2024-01-01"⟩, [], [⟨1, "me@x.com"⟩], 0⟩
        [[("email", "a@x.com"), ("subject", "Hi")],
         [("email", "bad"), ("subject", "Hi")],
         [("email", "a@x.com"), ("subject", "Hi")]]
        1 "Bulk Campaign" "2024-01-01" [sessionOk, sessionOk, sessionOk]).2.1.attempts = 1
      ∧ ((Api.send_bulk ⟨⟨"free", 0, 0, "2024-01-01"⟩, [], [⟨1, "me@x.com"⟩], 0⟩
        [[("email", "a@x.com"), ("subject", "Hi")],
         [("email", "bad"), ("subject", "Hi")],
         [("email", "a@x.com"), ("subject", "Hi")]]
        1 "Bulk Campaign" "2024-01-01" [sessionOk, sessionOk, sessionOk]).2.2.map
          Api.BulkResult.email) = ["a@x.com", "bad", "a@x.com"] := by
  decide

/-- C4 as amended: the silent dropping of malformed and duplicate addresses
happens in the campaign CSV parser `parse_csv` of `src/app.py`, which for
the claim's three rows keeps exactly the single contact `a@x.com` (one row
dropped as malformed, one as a duplicate); the bulk-send endpoint of
`src/main.py` drops rows only for a missing `email`/`subject` column and
attempts all three rows of this CSV. -/
theorem C4_csv_dropping :
    App.parse_csv
        [[("email", "a@x.com"), ("subject", "Hi")],
         [("email", "bad"), ("subject", "Hi")],
         [("email", "a@x.com"), ("subject", "Hi")]]
      = ([⟨"a@x.com", "", "", ""⟩], "Found 1 valid emails")
      ∧ Api.collectBulk
        [[("email", "a@x.com"), ("subject", "Hi")],
         [("email", "bad"), ("subject", "Hi")],
         [("email", "a@x.com"), ("subject", "Hi")]]
      = [⟨"a@x.com", "Hi", "", none⟩, ⟨"bad", "Hi", "", none⟩,
         ⟨"a@x.com", "Hi", "", none⟩]
      ∧ (Api.send_bulk ⟨⟨"free", 0, 0, "2024-01-01"⟩, [], [⟨1, "me@x.com"⟩], 0⟩
        [[("email", "a@x.com"), ("subject", "Hi")],
         [("email", "bad"), ("subject", "Hi")],
         [("email", "a@x.com"), ("subject", "Hi")]]
        1 "Bulk Campaign" "2024-01-01" [sessionOk, sessionOk, sessionOk]).2.1.attempts = 3 := by
  decide

/-- C5, counterexample: the `src/app.py` transport returns `(True, None)` on
success — the detail is Python `None` (embedded `Option.none`), not a
string, contradicting the claimed `(ok = true, detail string)` shape. -/
theorem C5_counterexample :
    App.send_email_smtp sessionOk = (true, none)
      ∧ ((App.send_email_smtp sessionOk).2.isSome = false) := by
  decide

/-- C5 as amended: neither transport lets an error escape: for every session
environment, `src/main.py`'s transport returns
`(true, "Email sent successfully")` on success and `(false, e)` with the
session's error text on any failure, while `src/app.py`'s returns
`(true, None)` on success — no detail string — and `(false, str(e))` on any
failure. -/
theorem C5_transport_no_exception (env : SmtpSession) :
    (Api.send_email_smtp env = (true, "Email sent successfully")
        ∨ ∃ e, runSession env = some e ∧ Api.send_email_smtp env = (false, e))
      ∧ (App.send_email_smtp env = (true, none)
        ∨ ∃ e, runSession env = some e ∧ App.send_email_smtp env = (false, some e)) := by
  cases h : runSession env with
  | none => simp [Api.send_email_smtp, App.send_email_smtp, h]
  | some e => simp [Api.send_email_smtp, App.send_email_smtp, h]

/-- C6: Scenario C — with the transport failing exactly for recipient 2 of 5
and ample quota, recipient 2 ends `failed` with the transport's error text
captured, recipients 3–5 are still attempted (5 transport calls in total),
and the campaign ends `completed` with `failed_count = 1`; an unexpected
per-recipient exception likewise marks just that recipient `failed` with the
exception text and the loop continues (shown on a 3-recipient run); and in
general, whenever the quota cannot run out over the batch, every recipient
of the run ends `sent` or `failed` — one bad recipient never aborts the
batch. -/
theorem C6_partial_failure_isolation :
    ((App.send_emails "free" (App.composeCampaign 5) ⟨0, 0⟩
        [(App.mkRecipient "r1@x.com" "" "" "", App.SendOutcome.ok),
         (App.mkRecipient "r2@x.com" "" "" "", App.SendOutcome.fail "SMTP 550 mailbox unavailable"),
         (App.mkRecipient "r3@x.com" "" "" "", App.SendOutcome.ok),
         (App.mkRecipient "r4@x.com" "" "" "", App.SendOutcome.ok),
         (App.mkRecipient "r5@x.com" "" "" "", App.SendOutcome.ok)]).recipients.map
          (fun r => (r.status, r.error)))
        = [("sent", none), ("failed", some "SMTP 550 mailbox unavailable"),
           ("sent", none), ("sent", none), ("sent", none)]
      ∧ (App.send_emails "free" (App.composeCampaign 5) ⟨0, 0⟩
        [(App.mkRecipient "r1@x.com" "" "" "", App.SendOutcome.ok),
         (App.mkRecipient "r2@x.com" "" "" "", App.SendOutcome.fail "SMTP 550 mailbox unavailable"),
         (App.mkRecipient "r3@x.com" "" "" "", App.SendOutcome.ok),
         (App.mkRecipient "r4@x.com" "" "" "", App.SendOutcome.ok),
         (App.mkRecipient "r5@x.com" "" "" "", App.SendOutcome.ok)]).attempts = 5
      ∧ (App.send_emails "free" (App.composeCampaign 5) ⟨0, 0⟩
        [(App.mkRecipient "r1@x.com" "" "" "", App.SendOutcome.ok),
         (App.mkRecipient "r2@x.com" "" "" "", App.SendOutcome.fail "SMTP 550 mailbox unavailable"),
         (App.mkRecipient "r3@x.com" "" "" "", App.SendOutcome.ok),
         (App.mkRecipient "r4@x.com" "" "" "", App.SendOutcome.ok),
         (App.mkRecipient "r5@x.com" "" "" "", App.SendOutcome.ok)]).campaign.status = "completed"
      ∧ (App.send_emails "free" (App.composeCampaign 5) ⟨0, 0⟩
        [(App.mkRecipient "r1@x.com" "" "" "", App.SendOutcome.ok),
         (App.mkRecipient "r2@x.com" "" "" "", App.SendOutcome.fail "SMTP 550 mailbox unavailable"),
         (App.mkRecipient "r3@x.com" "" "" "", App.SendOutcome.ok),
         (App.mkRecipient "r4@x.com" "" "" "", App.SendOutcome.ok),
         (App.mkRecipient "r5@x.com" "" "" "", App.SendOutcome.ok)]).campaign.failed_count = 1
      ∧ ((App.send_emails "free" (App.composeCampaign 3) ⟨0, 0⟩
        [(App.mkRecipient "r1@x.com" "" "" "", App.SendOutcome.ok),
         (App.mkRecipient "r2@x.com" "" "" "", App.SendOutcome.exc "unexpected: NoneType"),
         (App.mkRecipient "r3@x.com" "" "" "", App.SendOutcome.ok)]).recipients.map
          (fun r => (r.status, r.error)))
        = [("sent", none), ("failed", some "unexpected: NoneType"), ("sent", none)]
      ∧ (App.send_emails "free" (App.composeCampaign 3) ⟨0, 0⟩
        [(App.mkRecipient "r1@x.com" "" "" "", App.SendOutcome.ok),
         (App.mkRecipient "r2@x.com" "" "" "", App.SendOutcome.exc "unexpected: NoneType"),
         (App.mkRecipient "r3@x.com" "" "" "", App.SendOutcome.ok)]).campaign.status = "completed"
      ∧ ∀ (plan : String) (c : App.Campaign) (q : App.DailyQuota)
          (input : List (App.Recipient × App.SendOutcome)),
          q.sent_count + input.length ≤ App.quotaLimit plan →
          ((App.send_emails plan c q input).recipients.all
            (fun r => r.status == "sent" || r.status == "failed")) = true := by
  refine ⟨by decide, by decide, by decide, by decide, by decide, by decide, ?_⟩
  intro plan c q input h
  have h1 := App.stampCompleted_components
    (App.dispatchLoop plan { c with status := "sending" } q [] 0 input)
  unfold App.send_emails
  rw [h1.2.2.2.2]
  exact App.dispatchLoop_all_terminal input plan { c with status := "sending" } q [] 0 h

/-- C6, witness: the isolation conjunct instantiated on a 2-recipient run in
which the first raises an unexpected exception — both end terminal. -/
theorem C6_partial_failure_isolation_witness :
    ((App.send_emails "free" (App.composeCampaign 2) ⟨0, 0⟩
        [(App.mkRecipient "a@x.com" "" "" "", App.SendOutcome.exc "boom"),
         (App.mkRecipient "b@x.com" "" "" "", App.SendOutcome.ok)]).recipients.all
      (fun r => r.status == "sent" || r.status == "failed")) = true :=
  C6_partial_failure_isolation.2.2.2.2.2.2 "free" (App.composeCampaign 2) ⟨0, 0⟩
    [(App.mkRecipient "a@x.com" "" "" "", App.SendOutcome.exc "boom"),
     (App.mkRecipient "b@x.com" "" "" "", App.SendOutcome.ok)] (by decide)

/-- C7: the template renderer is the identity on any string in which no
placeholder key of the variable map occurs — in particular it is idempotent
on fully rendered strings, and a placeholder whose variable is not a key of
the map (such as an unknown token) is left verbatim, with no error. -/
theorem C7_render_identity (vars : List (List Char × List Char)) (s : List Char)
    (h : ∀ kv ∈ vars, App.containsSub kv.1 s = false) :
    App.renderTemplate vars s = s :=
  App.renderTemplate_of_not_contains vars s h

/-- C7, witness: rendering a fully rendered greeting that still holds an
unknown token (an opening brace is written `\x7b`, a closing one `\x7d`)
with the full per-recipient variable map leaves it unchanged. -/
theorem C7_render_identity_witness :
    App.renderTemplate
        (App.vars_map (App.mkRecipient "a@x.com" "Alice" "Acme" "Pune") "bob"
          "https://h/unsubscribe/a@x.com")
        "Hello Alice from Acme, \x7b\x7bfoo\x7d\x7d stays".data
      = "Hello Alice from Acme, \x7b\x7bfoo\x7d\x7d stays".data :=
  C7_render_identity
    (App.vars_map (App.mkRecipient "a@x.com" "Alice" "Acme" "Pune") "bob"
      "https://h/unsubscribe/a@x.com")
    "Hello Alice from Acme, \x7b\x7bfoo\x7d\x7d stays".data (by decide)

/-- C8: on the single-send path, a request with all fields present and a
valid address, made by a user whose same-day quota is exhausted, is rejected
with HTTP 400 and the quota message, and the whole state — `emails_today`,
`total_emails`, the history and the transport-invocation count — is exactly
the state before the request: the rejection happens before any send attempt
or state change. -/
theorem C8_quota_rejection_no_side_effect (st : Api.MainState) (today : String)
    (env : SmtpSession) (toEmail subj bodyTxt : String) (accId : Nat)
    (html : Option String)
    (hvalid : validate_email toEmail = true)
    (hday : st.user_stats.last_reset = today)
    (hquota : Api.dailyLimit st.user_stats.plan ≤ st.user_stats.emails_today) :
    Api.send_email st ⟨some toEmail, some subj, some bodyTxt, some accId, html⟩ today env
      = (Api.ApiResult.reject 400 (Api.limitMessage st.user_stats.emails_today), st) := by
  unfold Api.send_email Api.can_send_email
  simp only [Option.isNone_some, Bool.false_eq_true, if_false, Option.getD_some,
    hvalid, Bool.not_true, hday, ne_eq, not_true, ite_false, ite_true]
  simp [Nat.not_lt.mpr hquota]

/-- C8, witness: a concrete free-plan state at 10/10 is left byte-for-byte
unchanged by a well-formed but quota-rejected request. -/
theorem C8_quota_rejection_no_side_effect_witness :
    Api.send_email ⟨⟨"free", 10, 25, "2024-01-01"⟩, [], [⟨1, "me@x.com"⟩], 0⟩
        ⟨some "a@x.com", some "Hi", some "Body", some 1, none⟩ "2024-01-01" sessionOk
      = (Api.ApiResult.reject 400 (Api.limitMessage 10),
         ⟨⟨"free", 10, 25, "2024-01-01"⟩, [], [⟨1, "me@x.com"⟩], 0⟩) :=
  C8_quota_rejection_no_side_effect
    ⟨⟨"free", 10, 25, "2024-01-01"⟩, [], [⟨1, "me@x.com"⟩], 0⟩ "2024-01-01"
    sessionOk "a@x.com" "Hi" "Body" 1 none (by decide) rfl (by decide)

/-- C9: on the single-send path, a same-day request that reaches the send
step (all fields present, valid address, quota available, account found)
increments `emails_today` and `total_emails` by exactly one, appends exactly
one history record and makes exactly one transport invocation — for every
transport outcome, so a failed send consumes one quota unit too. -/
theorem C9_send_step_consumes_quota (st : Api.MainState) (today : String)
    (env : SmtpSession) (toEmail subj bodyTxt : String) (accId : Nat)
    (html : Option String) (acc : Api.SmtpAccount)
    (hvalid : validate_email toEmail = true)
    (hday : st.user_stats.last_reset = today)
    (hquota : st.user_stats.emails_today < Api.dailyLimit st.user_stats.plan)
    (hacc : Api.findAccount st.smtp_accounts accId = some acc) :
    (Api.send_email st ⟨some toEmail, some subj, some bodyTxt, some accId, html⟩
        today env).2.user_stats.emails_today = st.user_stats.emails_today + 1
      ∧ (Api.send_email st ⟨some toEmail, some subj, some bodyTxt, some accId, html⟩
        today env).2.user_stats.total_emails = st.user_stats.total_emails + 1
      ∧ (Api.send_email st ⟨some toEmail, some subj, some bodyTxt, some accId, html⟩
        today env).2.emails_history.length = st.emails_history.length + 1
      ∧ (Api.send_email st ⟨some toEmail, some subj, some bodyTxt, some accId, html⟩
        today env).2.attempts = st.attempts + 1 := by
  unfold Api.send_email Api.can_send_email
  simp only [Option.isNone_some, Bool.false_eq_true, if_false, Option.getD_some,
    hvalid, hday, ne_eq, not_true, ite_false, ite_true]
  simp [hquota, hacc]

/-- C9, witness: with a failing transport session (authentication error) the
counters and the history still each grow by one. -/
theorem C9_send_step_consumes_quota_witness :
    (Api.send_email ⟨⟨"free", 3, 25, "2024-01-01"⟩, [], [⟨1, "me@x.com"⟩], 0⟩
        ⟨some "a@x.com", some "Hi", some "Body", some 1, none⟩ "2024-01-01"
        ⟨none, none, some "auth failed", none⟩).2.user_stats.emails_today = 3 + 1
      ∧ (Api.send_email ⟨⟨"free", 3, 25, "2024-01-01"⟩, [], [⟨1, "me@x.com"⟩], 0⟩
        ⟨some "a@x.com", some "Hi", some "Body", some 1, none⟩ "2024-01-01"
        ⟨none, none, some "auth failed", none⟩).2.user_stats.total_emails = 25 + 1
      ∧ (Api.send_email ⟨⟨"free", 3, 25, "2024-01-01"⟩, [], [⟨1, "me@x.com"⟩], 0⟩
        ⟨some "a@x.com", some "Hi", some "Body", some 1, none⟩ "2024-01-01"
        ⟨none, none, some "auth failed", none⟩).2.emails_history.length
          = List.length ([] : List Api.EmailRecord) + 1
      ∧ (Api.send_email ⟨⟨"free", 3, 25, "2024-01-01"⟩, [], [⟨1, "me@x.com"⟩], 0⟩
        ⟨some "a@x.com", some "Hi", some "Body", some 1, none⟩ "2024-01-01"
        ⟨none, none, some "auth failed", none⟩).2.attempts = 0 + 1 :=
  C9_send_step_consumes_quota
    ⟨⟨"free", 3, 25, "2024-01-01"⟩, [], [⟨1, "me@x.com"⟩], 0⟩ "2024-01-01"
    ⟨none, none, some "auth failed", none⟩ "a@x.com" "Hi" "Body" 1 none
    ⟨1, "me@x.com"⟩ (by decide) rfl (by decide) (by decide)

/-- C10, counterexample: the transparent GIF returned by the tracking
endpoint is 43 bytes long, not 42 as the claim states. -/
theorem C10_counterexample :
    (Api.track_email_open ⟨⟨"free", 0, 0, "d"⟩, [], [], 0⟩ 99 "now").1.1.length = 43
      ∧ ¬ (Api.track_email_open ⟨⟨"free", 0, 0, "d"⟩, [], [], 0⟩ 99 "now").1.1.length = 42 := by
  decide

/-- C10 as amended: for every email id, the tracking endpoint returns the
same fixed 43-byte transparent GIF with status 200 and mimetype `image/gif`;
an unknown id is not an error and changes nothing; and when a matching entry
exists, the first one gets `opened := true` (with an `opened_at` stamp)
while every other history entry is unmodified. -/
theorem C10_tracking_pixel (st : Api.MainState) (emailId : Nat) (now : String) :
    (Api.track_email_open st emailId now).1 = (Api.TRACKING_PIXEL, 200, "image/gif")
      ∧ Api.TRACKING_PIXEL.length = 43
      ∧ ((∀ r ∈ st.emails_history, r.id ≠ emailId) →
          (Api.track_email_open st emailId now).2 = st)
      ∧ ∀ (pre post : List Api.EmailRecord) (r : Api.EmailRecord),
          st.emails_history = pre ++ r :: post →
          (∀ x ∈ pre, x.id ≠ emailId) → r.id = emailId →
          (Api.track_email_open st emailId now).2.emails_history
            = pre ++ { r with opened := true, opened_at := some now } :: post := by
  refine ⟨rfl, rfl, ?_, ?_⟩
  · intro h
    unfold Api.track_email_open
    rw [Api.markOpened_of_not_mem emailId now st.emails_history h]
  · intro pre post r hsplit hpre hr
    unfold Api.track_email_open
    simp only []
    rw [hsplit, Api.markOpened_append emailId now r post hr pre hpre]

/-- C10, witness: tracking id 2 on a two-record history marks exactly the
second record opened and leaves the first untouched. -/
theorem C10_tracking_pixel_witness :
    (Api.track_email_open
        ⟨⟨"free", 0, 0, "d"⟩,
         [⟨1, "a@x", "s1", "success", "m", false, none, none, none⟩,
          ⟨2, "b@x", "s2", "failed", "m", false, none, none, none⟩], [], 0⟩
        2 "now").2.emails_history
      = [⟨1, "a@x", "s1", "success", "m", false, none, none, none⟩]
        ++ { (⟨2, "b@x", "s2", "failed", "m", false, none, none, none⟩ : Api.EmailRecord) with
              opened := true, opened_at := some "now" } :: [] :=
  (C10_tracking_pixel
      ⟨⟨"free", 0, 0, "d"⟩,
       [⟨1, "a@x", "s1", "success", "m", false, none, none, none⟩,
        ⟨2, "b@x", "s2", "failed", "m", false, none, none, none⟩], [], 0⟩
      2 "now").2.2.2
    [⟨1, "a@x", "s1", "success", "m", false, none, none, none⟩] []
    ⟨2, "b@x", "s2", "failed", "m", false, none, none, none⟩ rfl (by decide) rfl

end EmailSaas
